import Mathlib

/-!
Verification of the command-line entry point and emulation-core properties of
the nes-rs emulator. The file embeds the control flow of `init` in
`src/main.rs` shallowly; the crate modules that `main.rs` consumes
(`io::errors`, `io::binutils`, `utils::arithmetic`, `nes::nes`) are not part
of the provided sources, so those pieces are modelled from the specification
and marked as such in their doc comments.
-/

namespace NesRs

/-- Modelled from the spec: exit code for success (`io::errors` is not under
src; the spec requires exit codes distinguishable per failure class). -/
def EXIT_SUCCESS : Int := 0

/-- Modelled from the spec: exit code for a generic failure. -/
def EXIT_FAILURE : Int := 1

/-- Modelled from the spec: exit code for an invalid or unparseable
cartridge header. -/
def EXIT_INVALID_ROM : Int := 2

/-- Modelled from the spec: exit code for an invalid program-counter
override argument. -/
def EXIT_INVALID_PC : Int := 3

/-- The iNES cartridge header fields read from the fixed 16-byte prefix. -/
structure INESHeader where
  prg_rom_size : Nat
  chr_rom_size : Nat
  flags_6 : Nat
  flags_7 : Nat
deriving DecidableEq, Repr

/-- Ways header parsing can fail. -/
inductive HeaderError where
  | tooShort
  | badSignature
deriving DecidableEq, Repr

/-- Modelled from the spec: `INESHeader::new` (`io::binutils` is not under
src). The cartridge image must be at least the fixed 16-byte header and its
first four bytes must equal the iNES magic signature `N` `E` `S` `0x1A`;
bytes 4 to 7 give program-ROM size, character-data size and the two flag
fields. -/
def INESHeader.new (rom : List Nat) : Except HeaderError INESHeader :=
  if rom.length < 16 then .error .tooShort
  else if rom.take 4 = [0x4E, 0x45, 0x53, 0x1A] then
    .ok { prg_rom_size := rom.getD 4 0
          chr_rom_size := rom.getD 5 0
          flags_6 := rom.getD 6 0
          flags_7 := rom.getD 7 0 }
  else .error .badSignature

/-- Value of one hexadecimal digit character, if it is one. -/
def hexDigitVal (c : Char) : Option Nat :=
  if '0' ≤ c ∧ c ≤ '9' then some (c.toNat - '0'.toNat)
  else if 'a' ≤ c ∧ c ≤ 'f' then some (c.toNat - 'a'.toNat + 10)
  else if 'A' ≤ c ∧ c ≤ 'F' then some (c.toNat - 'A'.toNat + 10)
  else none

/-- Modelled from the spec: `arithmetic::hex_to_u16` (`utils::arithmetic` is
not under src). Parses a hexadecimal string into a 16-bit value; fails on an
empty string, a non-hexadecimal character, or a value that does not fit in
16 bits. -/
def hex_to_u16 (s : String) : Option Nat :=
  if s.isEmpty then none
  else
    match s.toList.foldl
        (fun acc c =>
          match acc, hexDigitVal c with
          | some v, some d => some (16 * v + d)
          | _, _ => none)
        (some 0) with
    | some v => if v < 65536 then some v else none
    | none => none

/-- The result of option parsing in `init` (`getopts::Matches` restricted to
the options `init` declares): the four flags, the two option arguments and
the free argument list. -/
structure Matches where
  version : Bool
  help : Bool
  verbose : Bool
  debugging : Bool
  testOpt : Option String
  pcOpt : Option String
  free : List String
deriving DecidableEq, Repr

/-- Runtime options handed to the NES, mirroring the struct literal built at
the end of `init` in `src/main.rs`. -/
structure NESRuntimeOptions where
  program_counter : Option Nat
  cpu_log : Option String
  verbose : Bool
  debugging : Bool
deriving DecidableEq, Repr

/-- An I/O error as observed by `init`: the only thing `init` consumes from
it is `raw_os_error()`, which is absent for errors not caused by the
operating system. -/
structure IoError where
  raw_os_error : Option Int
deriving DecidableEq, Repr

/-- One line of diagnostic output produced by `init` before it returns. -/
inductive Msg where
  | parseFail (text : String)
  | usage (reason : Option String)
  | version
  | cannotOpen (file : String)
  | cannotParseRom (file : String)
  | cannotParsePC
deriving DecidableEq, Repr

/-- How `init` ends: returning an exit code, panicking (the `unwrap` on
`raw_os_error`), or constructing the NES and entering `run` with the given
ROM image, parsed header and runtime options. -/
inductive InitResult where
  | exit (code : Int)
  | panicked
  | run (rom : List Nat) (header : INESHeader) (opts : NESRuntimeOptions)
deriving DecidableEq, Repr

/-- The observable behaviour of one call to `init`: its result together with
the diagnostic lines printed on the way. -/
structure InitOutcome where
  result : InitResult
  output : List Msg
deriving DecidableEq, Repr

/-- Shallow embedding of `init` from `src/main.rs`. The environment is
abstracted into two inputs: `parsed`, the outcome of `opts.parse` on the
command-line arguments, and `read_bin`, the file-reading oracle standing
for `io::binutils::read_bin`. The branch structure follows the source line
by line: parse failure, then the version flag, then the help flag, then the
required free ROM argument, then reading the ROM, then header parsing, then
the program-counter override, and finally construction of the NES. -/
def init (parsed : Except String Matches)
    (read_bin : String → Except IoError (List Nat)) : InitOutcome :=
  match parsed with
  | .error f => { result := .exit EXIT_FAILURE, output := [.parseFail f, .usage none] }
  | .ok m =>
    if m.version then { result := .exit EXIT_SUCCESS, output := [.version] }
    else if m.help then { result := .exit EXIT_SUCCESS, output := [.usage none] }
    else
      match m.free with
      | [] =>
        { result := .exit EXIT_FAILURE
          output := [.usage (some "nes-rs: no rom passed, cannot start emulation")] }
      | rom_file_name :: _ =>
        match read_bin rom_file_name with
        | .error e =>
          match e.raw_os_error with
          | some code => { result := .exit code, output := [.cannotOpen rom_file_name] }
          | none => { result := .panicked, output := [.cannotOpen rom_file_name] }
        | .ok rom =>
          match INESHeader.new rom with
          | .error _ =>
            { result := .exit EXIT_INVALID_ROM, output := [.cannotParseRom rom_file_name] }
          | .ok header =>
            match m.pcOpt with
            | some arg =>
              match hex_to_u16 arg with
              | some hex =>
                { result := .run rom header
                    { program_counter := some hex
                      cpu_log := m.testOpt
                      verbose := m.verbose
                      debugging := m.debugging }
                  output := [] }
              | none => { result := .exit EXIT_INVALID_PC, output := [.cannotParsePC] }
            | none =>
              { result := .run rom header
                  { program_counter := none
                    cpu_log := m.testOpt
                    verbose := m.verbose
                    debugging := m.debugging }
                output := [] }

/-- Modelled from the spec: the per-opcode base cycle cost table of the
processor interpreter (the `nes` module is not under src). The spec makes
the nominal cycle cost of each instruction a static table value sourced
from established hardware documentation; this is the standard 6502 base
cycle table, with 0 marking the twelve kill opcodes that never retire. -/
def cycleTable : List Nat :=
  [7, 6, 0, 8, 3, 3, 5, 5, 3, 2, 2, 2, 4, 4, 6, 6,
   2, 5, 0, 8, 4, 4, 6, 6, 2, 4, 2, 7, 4, 4, 7, 7,
   6, 6, 0, 8, 3, 3, 5, 5, 4, 2, 2, 2, 4, 4, 6, 6,
   2, 5, 0, 8, 4, 4, 6, 6, 2, 4, 2, 7, 4, 4, 7, 7,
   6, 6, 0, 8, 3, 3, 5, 5, 3, 2, 2, 2, 3, 4, 6, 6,
   2, 5, 0, 8, 4, 4, 6, 6, 2, 4, 2, 7, 4, 4, 7, 7,
   6, 6, 0, 8, 3, 3, 5, 5, 4, 2, 2, 2, 5, 4, 6, 6,
   2, 5, 0, 8, 4, 4, 6, 6, 2, 4, 2, 7, 4, 4, 7, 7,
   2, 6, 2, 6, 3, 3, 3, 3, 2, 2, 2, 2, 4, 4, 4, 4,
   2, 6, 0, 6, 4, 4, 4, 4, 2, 5, 2, 5, 5, 5, 5, 5,
   2, 6, 2, 6, 3, 3, 3, 3, 2, 2, 2, 2, 4, 4, 4, 4,
   2, 5, 0, 5, 4, 4, 4, 4, 2, 4, 2, 4, 4, 4, 4, 4,
   2, 6, 2, 8, 3, 3, 5, 5, 2, 2, 2, 2, 4, 4, 6, 6,
   2, 5, 0, 8, 4, 4, 6, 6, 2, 4, 2, 7, 4, 4, 7, 7,
   2, 6, 2, 8, 3, 3, 5, 5, 2, 2, 2, 2, 4, 4, 6, 6,
   2, 5, 0, 8, 4, 4, 6, 6, 2, 4, 2, 7, 4, 4, 7, 7]

/-- Modelled from the spec: per-opcode instruction length in bytes, used by
the fetch stage to advance the program counter past the opcode and its
operand bytes. -/
def lenTable : List Nat :=
  [1, 2, 1, 2, 2, 2, 2, 2, 1, 2, 1, 2, 3, 3, 3, 3,
   2, 2, 1, 2, 2, 2, 2, 2, 1, 3, 1, 3, 3, 3, 3, 3,
   3, 2, 1, 2, 2, 2, 2, 2, 1, 2, 1, 2, 3, 3, 3, 3,
   2, 2, 1, 2, 2, 2, 2, 2, 1, 3, 1, 3, 3, 3, 3, 3,
   1, 2, 1, 2, 2, 2, 2, 2, 1, 2, 1, 2, 3, 3, 3, 3,
   2, 2, 1, 2, 2, 2, 2, 2, 1, 3, 1, 3, 3, 3, 3, 3,
   1, 2, 1, 2, 2, 2, 2, 2, 1, 2, 1, 2, 3, 3, 3, 3,
   2, 2, 1, 2, 2, 2, 2, 2, 1, 3, 1, 3, 3, 3, 3, 3,
   2, 2, 2, 2, 2, 2, 2, 2, 1, 2, 1, 2, 3, 3, 3, 3,
   2, 2, 1, 2, 2, 2, 2, 2, 1, 3, 1, 3, 3, 3, 3, 3,
   2, 2, 2, 2, 2, 2, 2, 2, 1, 2, 1, 2, 3, 3, 3, 3,
   2, 2, 1, 2, 2, 2, 2, 2, 1, 3, 1, 3, 3, 3, 3, 3,
   2, 2, 2, 2, 2, 2, 2, 2, 1, 2, 1, 2, 3, 3, 3, 3,
   2, 2, 1, 2, 2, 2, 2, 2, 1, 3, 1, 3, 3, 3, 3, 3,
   2, 2, 2, 2, 2, 2, 2, 2, 1, 2, 1, 2, 3, 3, 3, 3,
   2, 2, 1, 2, 2, 2, 2, 2, 1, 3, 1, 3, 3, 3, 3, 3]

/-- The twelve kill opcodes: the table marks them as halting, they are fatal
to the run loop and never retire. -/
def kilOps : List Nat :=
  [0x02, 0x12, 0x22, 0x32, 0x42, 0x52, 0x62, 0x72, 0x92, 0xB2, 0xD2, 0xF2]

/-- Reader opcodes in absolute,X addressing that pay the page-cross
penalty (write instructions have the extra cycle folded into their base
cost). -/
def absXPenaltyOps : List Nat :=
  [0x1C, 0x1D, 0x3C, 0x3D, 0x5C, 0x5D, 0x7C, 0x7D, 0xBC, 0xBD, 0xDC, 0xDD, 0xFC, 0xFD]

/-- Reader opcodes in absolute,Y addressing that pay the page-cross
penalty. -/
def absYPenaltyOps : List Nat :=
  [0x19, 0x39, 0x59, 0x79, 0xB9, 0xBB, 0xBE, 0xBF, 0xD9, 0xF9]

/-- Reader opcodes in indirect,Y addressing that pay the page-cross
penalty. -/
def indYPenaltyOps : List Nat :=
  [0x11, 0x31, 0x51, 0x71, 0xB1, 0xB3, 0xD1, 0xF1]

/-- The eight conditional branch opcodes. -/
def branchOps : List Nat :=
  [0x10, 0x30, 0x50, 0x70, 0x90, 0xB0, 0xD0, 0xF0]

/-- Modelled from the spec: processor state — the three 8-bit registers,
the 8-bit stack pointer, the status byte, the 16-bit program counter, the
monotone cycle counter, the byte-addressed memory seen through the address
space, and whether a kill opcode has halted the loop. -/
structure CPUState where
  a : Nat
  x : Nat
  y : Nat
  sp : Nat
  p : Nat
  pc : Nat
  cycles : Nat
  mem : List Nat
  halted : Bool
deriving DecidableEq, Repr

/-- One byte read from memory: addresses wrap at 16 bits, unmapped reads
return 0, and values are bytes. -/
def readMem (mem : List Nat) (addr : Nat) : Nat :=
  (mem.getD (addr % 65536) 0) % 256

/-- A little-endian 16-bit read. -/
def read16 (mem : List Nat) (addr : Nat) : Nat :=
  readMem mem addr + 256 * readMem mem (addr + 1)

/-- Modelled from the spec: the fixed reset-vector location 0xFFFC/0xFFFD
holding the address execution begins at on power-on. -/
def resetVector (mem : List Nat) : Nat :=
  read16 mem 0xFFFC

/-- Modelled from the spec: the address of the first fetch — the
caller-supplied program-counter override when one was given, the reset
vector otherwise. -/
def initialPC (opts : NESRuntimeOptions) (mem : List Nat) : Nat :=
  match opts.program_counter with
  | some pc => pc
  | none => resetVector mem

/-- Modelled from the spec: the power-on state built when the NES is
constructed from a cartridge image and runtime options — documented reset
flag pattern with interrupt-disable set, cycle counter at zero, program
counter from `initialPC`. -/
def powerOn (rom : List Nat) (opts : NESRuntimeOptions) : CPUState :=
  { a := 0, x := 0, y := 0, sp := 0xFD, p := 0x24
    pc := initialPC opts rom % 65536, cycles := 0, mem := rom, halted := false }

/-- Bit `n` of the status byte. -/
def flagBit (p n : Nat) : Bool :=
  p / 2 ^ n % 2 = 1

/-- Whether the conditional branch with the given opcode is taken under the
status byte `p`: each branch tests one flag bit against one polarity. -/
def branchTaken (p op : Nat) : Bool :=
  if op = 0x10 then !(flagBit p 7)
  else if op = 0x30 then flagBit p 7
  else if op = 0x50 then !(flagBit p 6)
  else if op = 0x70 then flagBit p 6
  else if op = 0x90 then !(flagBit p 0)
  else if op = 0xB0 then flagBit p 0
  else if op = 0xD0 then !(flagBit p 1)
  else flagBit p 1

/-- Whether two 16-bit addresses lie in different 256-byte pages. -/
def pageCrossed (a b : Nat) : Bool :=
  a % 65536 / 256 != b % 65536 / 256

/-- The destination of a conditional branch: the signed 8-bit offset added
to the address of the next instruction. -/
def branchTarget (s : CPUState) : Nat :=
  let off := readMem s.mem (s.pc + 1)
  let next := (s.pc + 2) % 65536
  if off < 128 then (next + off) % 65536
  else (next + off + 65536 - 256) % 65536

/-- The page-cross penalty of the instruction at the program counter: one
extra cycle when a reader-mode effective-address computation crosses a
256-byte page, zero otherwise. -/
def pagePenalty (s : CPUState) (op : Nat) : Nat :=
  if op ∈ absXPenaltyOps then
    let base := read16 s.mem (s.pc + 1)
    if pageCrossed base (base + s.x) then 1 else 0
  else if op ∈ absYPenaltyOps then
    let base := read16 s.mem (s.pc + 1)
    if pageCrossed base (base + s.y) then 1 else 0
  else if op ∈ indYPenaltyOps then
    let zp := readMem s.mem (s.pc + 1)
    let base := readMem s.mem zp + 256 * readMem s.mem ((zp + 1) % 256)
    if pageCrossed base (base + s.y) then 1 else 0
  else 0

/-- The branch penalty: one extra cycle for a taken conditional branch, two
when the taken branch also crosses a page. -/
def branchPenalty (s : CPUState) (op : Nat) : Nat :=
  if op ∈ branchOps ∧ branchTaken s.p op then
    if pageCrossed ((s.pc + 2) % 65536) (branchTarget s) then 2 else 1
  else 0

/-- The exact cycle cost of retiring the instruction at the program
counter: base table cost plus the applicable page-cross and branch-taken
penalties. -/
def instructionCost (s : CPUState) (op : Nat) : Nat :=
  cycleTable.getD op 0 + pagePenalty s op + branchPenalty s op

/-- Modelled from the spec: one fetch-decode-execute step of the processor
interpreter, parameterised by `eff`, the per-opcode register/memory effect
(the spec leaves the per-opcode effect table to hardware documentation).
The skeleton owns what the claims are about: the opcode fetch, the
program-counter advance (branch target on a taken branch, instruction
length otherwise), halting on a kill opcode, and the cycle accounting —
`eff` cannot touch the cycle counter. -/
def stepFn (eff : Nat → CPUState → CPUState) (s : CPUState) : CPUState :=
  if s.halted then s
  else
    let op := readMem s.mem s.pc
    if op ∈ kilOps then { s with halted := true }
    else
      let cost := instructionCost s op
      let s1 :=
        if op ∈ branchOps ∧ branchTaken s.p op then { s with pc := branchTarget s }
        else { s with pc := (s.pc + lenTable.getD op 1) % 65536 }
      let s2 := eff op s1
      { s2 with cycles := s.cycles + cost }

/-- The run relation: `RunSteps eff s n t` holds when the interpreter,
started in state `s`, reaches state `t` after retiring `n` steps. -/
inductive RunSteps (eff : Nat → CPUState → CPUState) : CPUState → Nat → CPUState → Prop where
  | refl (s : CPUState) : RunSteps eff s 0 s
  | step {s s1 : CPUState} {n : Nat} :
      RunSteps eff s n s1 → RunSteps eff s (n + 1) (stepFn eff s1)

/-- A minimal well-formed cartridge image: the iNES signature followed by a
zero-filled remainder of the 16-byte header. -/
def sampleRom : List Nat :=
  [0x4E, 0x45, 0x53, 0x1A, 1, 0, 0, 0, 0, 0, 0, 0, 0, 0, 0, 0]

/-- The header parsed from `sampleRom`. -/
def sampleHeader : INESHeader :=
  { prg_rom_size := 1, chr_rom_size := 0, flags_6 := 0, flags_7 := 0 }

/-- A 16-byte image whose first four bytes are not the iNES signature. -/
def badRom : List Nat := List.replicate 16 0

/-- A parse result with no flags set and one free ROM argument. -/
def mBase : Matches :=
  { version := false, help := false, verbose := false, debugging := false
    testOpt := none, pcOpt := none, free := ["game.nes"] }

/-- `mBase` with a well-formed program-counter override. -/
def mPC : Matches := { mBase with pcOpt := some "C000" }

/-- `mBase` with a malformed program-counter override. -/
def mBadPC : Matches := { mBase with pcOpt := some "xyz" }

/-- A parse result with an empty free argument list. -/
def mNoRom : Matches := { mBase with free := [] }

/-- A parse result with both the version and the help flag set and no ROM
argument. -/
def mVer : Matches := { mBase with version := true, help := true, free := [] }

/-- A file oracle that returns `sampleRom` for every path. -/
def rbSample : String → Except IoError (List Nat) := fun _ => .ok sampleRom

/-- A file oracle that returns `badRom` for every path. -/
def rbBad : String → Except IoError (List Nat) := fun _ => .ok badRom

/-- The trivial per-opcode effect: no register or memory change. -/
def effId : Nat → CPUState → CPUState := fun _ s => s

/-- Runtime options with a program-counter override of 0xC000. -/
def optsPC : NESRuntimeOptions :=
  { program_counter := some 49152, cpu_log := none, verbose := false, debugging := false }

/-- Runtime options with no program-counter override. -/
def optsNone : NESRuntimeOptions :=
  { program_counter := none, cpu_log := none, verbose := false, debugging := false }

/-- A power-on state over a one-byte image holding a NOP opcode, started at
address 0. -/
def sNop : CPUState :=
  powerOn [0xEA]
    { program_counter := some 0, cpu_log := none, verbose := false, debugging := false }

set_option maxRecDepth 4096 in
set_option maxHeartbeats 1000000 in
/-- Every opcode the table does not mark as halting has a strictly positive
base cycle cost. -/
lemma cycleTable_pos : ∀ i : Fin 256, i.val ∉ kilOps → 0 < cycleTable.getD i.val 0 := by
  decide

/-- C1: if `INESHeader::new` fails on the ROM image, `init` reports the
failure and returns `EXIT_INVALID_ROM` without constructing the NES or
calling `run`. -/
theorem init_rejects_invalid_header (m : Matches) (f : String) (fs : List String)
    (rom : List Nat) (err : HeaderError)
    (read_bin : String → Except IoError (List Nat))
    (hv : m.version = false) (hh : m.help = false) (hfree : m.free = f :: fs)
    (hread : read_bin f = .ok rom) (hhdr : INESHeader.new rom = .error err) :
    init (.ok m) read_bin =
      { result := .exit EXIT_INVALID_ROM, output := [.cannotParseRom f] } ∧
    ∀ rom2 hdr opts, (init (.ok m) read_bin).result ≠ .run rom2 hdr opts := by
  have h : init (.ok m) read_bin =
      { result := .exit EXIT_INVALID_ROM, output := [.cannotParseRom f] } := by
    simp [init, hv, hh, hfree, hread, hhdr]
  exact ⟨h, fun rom2 hdr opts => by simp [h]⟩

/-- Closed instance of C1 on a 16-byte image with a wrong signature. -/
theorem init_rejects_invalid_header_witness :
    init (.ok mBase) rbBad =
      { result := .exit EXIT_INVALID_ROM, output := [.cannotParseRom "game.nes"] } :=
  (init_rejects_invalid_header mBase "game.nes" [] badRom .badSignature rbBad
    rfl rfl rfl rfl rfl).1

/-- C2: the four exit codes are pairwise distinct and `init` returns the
code that names the failure class: success for version/help, generic
failure for a parse failure or a missing ROM argument, `EXIT_INVALID_ROM`
for an unparseable header, `EXIT_INVALID_PC` for an unparseable
program-counter override. -/
theorem exit_codes_classify :
    (EXIT_SUCCESS ≠ EXIT_FAILURE ∧ EXIT_SUCCESS ≠ EXIT_INVALID_ROM ∧
     EXIT_SUCCESS ≠ EXIT_INVALID_PC ∧ EXIT_FAILURE ≠ EXIT_INVALID_ROM ∧
     EXIT_FAILURE ≠ EXIT_INVALID_PC ∧ EXIT_INVALID_ROM ≠ EXIT_INVALID_PC) ∧
    (∀ f rb, (init (.error f) rb).result = .exit EXIT_FAILURE) ∧
    (∀ m rb, m.version = true → (init (.ok m) rb).result = .exit EXIT_SUCCESS) ∧
    (∀ m rb, m.version = false → m.help = true →
      (init (.ok m) rb).result = .exit EXIT_SUCCESS) ∧
    (∀ m rb, m.version = false → m.help = false → m.free = [] →
      (init (.ok m) rb).result = .exit EXIT_FAILURE) ∧
    (∀ m f fs rom err rb, m.version = false → m.help = false → m.free = f :: fs →
      rb f = .ok rom → INESHeader.new rom = .error err →
      (init (.ok m) rb).result = .exit EXIT_INVALID_ROM) ∧
    (∀ m f fs rom hdr arg rb, m.version = false → m.help = false → m.free = f :: fs →
      rb f = .ok rom → INESHeader.new rom = .ok hdr → m.pcOpt = some arg →
      hex_to_u16 arg = none →
      (init (.ok m) rb).result = .exit EXIT_INVALID_PC) := by
  refine ⟨by decide, ?_, ?_, ?_, ?_, ?_, ?_⟩ <;> intros <;> simp_all [init]

/-- Closed instances of C2, one per failure class. -/
theorem exit_codes_classify_witness :
    (init (.ok mVer) rbSample).result = .exit EXIT_SUCCESS ∧
    (init (.ok mNoRom) rbSample).result = .exit EXIT_FAILURE ∧
    (init (.ok mBase) rbBad).result = .exit EXIT_INVALID_ROM ∧
    (init (.ok mBadPC) rbSample).result = .exit EXIT_INVALID_PC :=
  ⟨exit_codes_classify.2.2.1 mVer rbSample rfl,
   exit_codes_classify.2.2.2.2.1 mNoRom rbSample rfl rfl rfl,
   exit_codes_classify.2.2.2.2.2.1 mBase "game.nes" [] badRom .badSignature rbBad
     rfl rfl rfl rfl rfl,
   exit_codes_classify.2.2.2.2.2.2 mBadPC "game.nes" [] sampleRom sampleHeader "xyz"
     rbSample rfl rfl rfl rfl rfl rfl (by decide)⟩

/-- C3: a program-counter override that parses as hexadecimal flows
unchanged into `NESRuntimeOptions.program_counter`, making it the first
fetch address; with no override the options carry `none` and the first
fetch address is the reset vector. -/
theorem pc_override_flows_to_runtime (m : Matches) (f : String) (fs : List String)
    (rom : List Nat) (hdr : INESHeader)
    (read_bin : String → Except IoError (List Nat))
    (hv : m.version = false) (hh : m.help = false) (hfree : m.free = f :: fs)
    (hread : read_bin f = .ok rom) (hhdr : INESHeader.new rom = .ok hdr) :
    (∀ arg v, m.pcOpt = some arg → hex_to_u16 arg = some v →
      init (.ok m) read_bin =
        { result := .run rom hdr
            { program_counter := some v, cpu_log := m.testOpt
              verbose := m.verbose, debugging := m.debugging }
          output := [] } ∧
      ∀ mem, initialPC
          { program_counter := some v, cpu_log := m.testOpt
            verbose := m.verbose, debugging := m.debugging } mem = v) ∧
    (m.pcOpt = none →
      init (.ok m) read_bin =
        { result := .run rom hdr
            { program_counter := none, cpu_log := m.testOpt
              verbose := m.verbose, debugging := m.debugging }
          output := [] } ∧
      ∀ mem, initialPC
          { program_counter := none, cpu_log := m.testOpt
            verbose := m.verbose, debugging := m.debugging } mem = resetVector mem) := by
  constructor
  · intro arg v hpc hhex
    exact ⟨by simp [init, hv, hh, hfree, hread, hhdr, hpc, hhex], fun mem => rfl⟩
  · intro hpc
    exact ⟨by simp [init, hv, hh, hfree, hread, hhdr, hpc], fun mem => rfl⟩

/-- Closed instance of C3: the override string C000 becomes program counter
49152. -/
theorem pc_override_flows_to_runtime_witness :
    init (.ok mPC) rbSample =
      { result := .run sampleRom sampleHeader optsPC, output := [] } ∧
    initialPC optsPC [] = 49152 := by
  have h := (pc_override_flows_to_runtime mPC "game.nes" [] sampleRom sampleHeader
    rbSample rfl rfl rfl rfl rfl).1 "C000" 49152 rfl (by decide)
  exact ⟨h.1, h.2 []⟩

/-- C4: a supplied program-counter override that does not parse as
hexadecimal makes `init` print an error and return `EXIT_INVALID_PC`,
distinct from the invalid-header code, before constructing the NES. -/
theorem init_rejects_invalid_pc (m : Matches) (f : String) (fs : List String)
    (rom : List Nat) (hdr : INESHeader) (arg : String)
    (read_bin : String → Except IoError (List Nat))
    (hv : m.version = false) (hh : m.help = false) (hfree : m.free = f :: fs)
    (hread : read_bin f = .ok rom) (hhdr : INESHeader.new rom = .ok hdr)
    (hpc : m.pcOpt = some arg) (hhex : hex_to_u16 arg = none) :
    init (.ok m) read_bin =
      { result := .exit EXIT_INVALID_PC, output := [.cannotParsePC] } ∧
    EXIT_INVALID_PC ≠ EXIT_INVALID_ROM ∧
    ∀ rom2 hdr2 opts, (init (.ok m) read_bin).result ≠ .run rom2 hdr2 opts := by
  have h : init (.ok m) read_bin =
      { result := .exit EXIT_INVALID_PC, output := [.cannotParsePC] } := by
    simp [init, hv, hh, hfree, hread, hhdr, hpc, hhex]
  exact ⟨h, by decide, fun rom2 hdr2 opts => by simp [h]⟩

/-- Closed instance of C4 on the unparseable override string xyz. -/
theorem init_rejects_invalid_pc_witness :
    init (.ok mBadPC) rbSample =
      { result := .exit EXIT_INVALID_PC, output := [.cannotParsePC] } :=
  (init_rejects_invalid_pc mBadPC "game.nes" [] sampleRom sampleHeader "xyz" rbSample
    rfl rfl rfl rfl rfl rfl (by decide)).1

/-- C5: every run `init` constructs carries `cpu_log` equal to the test
option argument, so trace-comparison mode is enabled exactly when the test
option was given and a non-test run has no comparator. -/
theorem cpu_log_iff_test_option (m : Matches)
    (read_bin : String → Except IoError (List Nat))
    (rom : List Nat) (hdr : INESHeader) (opts : NESRuntimeOptions) (out : List Msg)
    (h : init (.ok m) read_bin = { result := .run rom hdr opts, output := out }) :
    opts.cpu_log = m.testOpt ∧ (opts.cpu_log.isSome ↔ m.testOpt.isSome) ∧
    (m.testOpt = none → opts.cpu_log = none) := by
  have hlog : opts.cpu_log = m.testOpt := by
    simp only [init] at h
    repeat' split at h
    all_goals simp_all [InitOutcome.mk.injEq]
    all_goals (obtain ⟨-, -, hopts⟩ := h.1; rw [← hopts])
  exact ⟨hlog, by rw [hlog], fun hn => by rw [hlog, hn]⟩

/-- Closed instance of C5 on a run constructed without the test option. -/
theorem cpu_log_iff_test_option_witness :
    ((none : Option String).isSome ↔ (mBase.testOpt).isSome) :=
  (cpu_log_iff_test_option mBase rbSample sampleRom sampleHeader
    { program_counter := none, cpu_log := none, verbose := false, debugging := false }
    [] (by decide)).2.1

/-- C6: with no free (positional) argument left after option parsing,
`init` prints usage with a reason and returns the generic failure code; the
outcome does not depend on the file oracle, so no file is read, no header
parsed, and no emulation started. -/
theorem missing_rom_is_generic_failure (m : Matches)
    (rb rb2 : String → Except IoError (List Nat))
    (hv : m.version = false) (hh : m.help = false) (hfree : m.free = []) :
    init (.ok m) rb =
      { result := .exit EXIT_FAILURE
        output := [.usage (some "nes-rs: no rom passed, cannot start emulation")] } ∧
    init (.ok m) rb = init (.ok m) rb2 := by
  constructor <;> simp [init, hv, hh, hfree]

/-- Closed instance of C6 on an empty free argument list. -/
theorem missing_rom_is_generic_failure_witness :
    init (.ok mNoRom) rbSample =
      { result := .exit EXIT_FAILURE
        output := [.usage (some "nes-rs: no rom passed, cannot start emulation")] } :=
  (missing_rom_is_generic_failure mNoRom rbSample rbBad rfl rfl rfl).1

/-- C9: when reading the cartridge file fails, `init` returns the raw
operating-system error code as the exit code; when the I/O error carries no
such code, the `unwrap` panics — that branch is reachable. -/
theorem read_error_exit_code (m : Matches) (f : String) (fs : List String)
    (rb : String → Except IoError (List Nat)) (e : IoError)
    (hv : m.version = false) (hh : m.help = false) (hfree : m.free = f :: fs)
    (hread : rb f = .error e) :
    (∀ c, e.raw_os_error = some c →
      init (.ok m) rb = { result := .exit c, output := [.cannotOpen f] }) ∧
    (e.raw_os_error = none →
      init (.ok m) rb = { result := .panicked, output := [.cannotOpen f] }) := by
  constructor
  · intro c hc; simp [init, hv, hh, hfree, hread, hc]
  · intro hc; simp [init, hv, hh, hfree, hread, hc]

/-- Closed instances of C9: an OS error code 13 is propagated, and an error
with no OS code reaches the panicking branch. -/
theorem read_error_exit_code_witness :
    init (.ok mBase) (fun _ => .error { raw_os_error := some 13 }) =
      { result := .exit 13, output := [.cannotOpen "game.nes"] } ∧
    init (.ok mBase) (fun _ => .error { raw_os_error := none }) =
      { result := .panicked, output := [.cannotOpen "game.nes"] } :=
  ⟨(read_error_exit_code mBase "game.nes" [] _ _ rfl rfl rfl rfl).1 13 rfl,
   (read_error_exit_code mBase "game.nes" [] _ _ rfl rfl rfl rfl).2 rfl⟩

/-- C10: the version flag short-circuits everything else with
`EXIT_SUCCESS` and only the version line printed; with version absent the
help flag does the same with the usage text; when both are present the
version flag wins, so it is checked first. -/
theorem version_help_precedence (m : Matches)
    (rb : String → Except IoError (List Nat)) :
    (m.version = true →
      init (.ok m) rb = { result := .exit EXIT_SUCCESS, output := [.version] }) ∧
    (m.version = false → m.help = true →
      init (.ok m) rb = { result := .exit EXIT_SUCCESS, output := [.usage none] }) ∧
    (m.version = true → m.help = true →
      (init (.ok m) rb).output = [.version]) := by
  exact ⟨fun hv => by simp [init, hv], fun hv hh => by simp [init, hv, hh],
    fun hv _ => by simp [init, hv]⟩

/-- Closed instance of C10 with both flags set and no ROM argument. -/
theorem version_help_precedence_witness :
    init (.ok mVer) rbSample = { result := .exit EXIT_SUCCESS, output := [.version] } :=
  (version_help_precedence mVer rbSample).1 rfl

/-- C7: retiring one instruction advances the cycle counter by exactly the
base table cost plus the applicable page-cross and branch penalties, and
that increment is strictly positive, whatever the per-opcode effect is. -/
theorem retire_cycle_advance (eff : Nat → CPUState → CPUState) (s : CPUState) (op : Nat)
    (hhalt : s.halted = false) (hop : readMem s.mem s.pc = op) (hkil : op ∉ kilOps) :
    (stepFn eff s).cycles = s.cycles + instructionCost s op ∧
    0 < instructionCost s op := by
  have h256 : op < 256 := by
    rw [← hop]
    exact Nat.mod_lt _ (by norm_num)
  refine ⟨?_, ?_⟩
  · simp [stepFn, hhalt, hop, hkil]
  · have hpos : 0 < cycleTable.getD op 0 := cycleTable_pos ⟨op, h256⟩ hkil
    unfold instructionCost
    omega

/-- Closed instance of C7: a NOP at address 0 advances the cycle counter by
a positive amount. -/
theorem retire_cycle_advance_witness :
    (stepFn effId sNop).cycles = sNop.cycles + instructionCost sNop 0xEA ∧
    0 < instructionCost sNop 0xEA :=
  retire_cycle_advance effId sNop 0xEA rfl (by decide) (by decide)

/-- C8: the run relation is deterministic — two runs from the power-on
state of the same cartridge image and options that retire the same number
of instructions end in identical states (registers, flags, cycle counter,
memory alike). -/
theorem run_from_reset_deterministic (eff : Nat → CPUState → CPUState)
    (rom : List Nat) (opts : NESRuntimeOptions) (n : Nat) (t1 t2 : CPUState)
    (h1 : RunSteps eff (powerOn rom opts) n t1)
    (h2 : RunSteps eff (powerOn rom opts) n t2) : t1 = t2 := by
  revert h2
  induction h1 generalizing t2 with
  | refl => intro h2; cases h2; rfl
  | step hs ih =>
    intro h2
    cases h2 with
    | step hs2 => rw [ih _ hs2]

/-- Closed instance of C8: one retired step from the same power-on state
twice over gives the same state. -/
theorem run_from_reset_deterministic_witness :
    stepFn effId (powerOn sampleRom optsNone) = stepFn effId (powerOn sampleRom optsNone) :=
  run_from_reset_deterministic effId sampleRom optsNone 1 _ _
    (RunSteps.step (RunSteps.refl _)) (RunSteps.step (RunSteps.refl _))

end NesRs
